import Mathlib

/-!
Verification of the Wind-Turbine-Monitoring audio telemetry pipeline.

Shallow embedding of the C sources:
  Core/Src/audio_features.c         (integer feature computations)
  Core/Inc/audio_features.h         (packed 64-byte AudioTelemetryPacket_t)
  Core/Inc/app_telemetry.h          (divergent float-based packet variant)
  feature_extraction.c              (accumulator thread, packet assembly)
  NetXDuo/App/app_telemetry.c       (UDP sender with last-packet cache)
  STM32CubeIDE/.../app_telemetry.c  (ring-buffer retained cache variant)
  Core/Src/app_telemetry.c          (reject-on-full buffer variant)

Machine integers are modelled as Nat/Int with explicit reductions modulo
2^8, 2^16 and 2^32 where the C types wrap.  int16_t samples are Int values
in [-32768, 32767].  The floating-point feature computations (RMS and SPL)
are abstracted as parameters of the model, because no settled property
depends on their values.
-/

/-- Conversion of an Int to the int16_t range by two's-complement wrap:
models the implementation-defined narrowing conversion on the ARM target. -/
def int16ofInt (x : Int) : Int := (x + 32768) % 65536 - 32768

/-- Conversion of an Int to uint16_t (reduction modulo 65536, as C defines). -/
def uint16ofInt (x : Int) : Nat := (x % 65536).toNat

/-- AudioFeatures_CalculateZCR's crossing loop (audio_features.c lines 85-93):
one crossing per consecutive pair whose signs differ, where 0 counts as
non-negative. -/
def zeroCrossings : List Int → Nat
  | x :: y :: rest =>
      (if (x ≥ 0 ∧ y < 0) ∨ (x < 0 ∧ y ≥ 0) then 1 else 0) + zeroCrossings (y :: rest)
  | _ => 0

/-- AudioFeatures_CalculateZCR (audio_features.c lines 78-104): crossing count
scaled by 100, divided by the sample count (uint32 arithmetic), truncated to
uint16_t and clamped at 100. -/
def AudioFeatures_CalculateZCR (samples : List Int) : Nat :=
  if samples.length < 2 then 0
  else
    let zcr_percent := ((zeroCrossings samples * 100) % 4294967296) / samples.length % 65536
    if zcr_percent > 100 then 100 else zcr_percent

/-- AudioFeatures_FindPeakAmplitude (audio_features.c lines 145-163): the loop
negates a negative int16_t sample in place (wrapping at INT16_MIN) and
compares the uint16_t reinterpretation against the running peak. -/
def AudioFeatures_FindPeakAmplitude (samples : List Int) : Nat :=
  if samples.length = 0 then 0
  else
    samples.foldl
      (fun peak s =>
        let absVal := if s < 0 then int16ofInt (-s) else s
        if uint16ofInt absVal > peak then uint16ofInt absVal else peak)
      0

/-- AudioTelemetryPacket_t, the packed wire packet of audio_features.h
(part_001 lines 49-83).  Field values are the stored machine words. -/
structure AudioTelemetryPacket where
  version : Nat
  reserved1 : Nat
  seq_number : Nat
  timestamp_ms : Nat
  rms_raw : Nat
  rms_reserved : Nat
  zcr_count : Nat
  zcr_rate : Nat
  spl_db : Nat
  peak_amplitude : Nat
  fft_band : Fin 8 → Nat
  node_id : Nat
  status_flags : Nat
  error_count : Nat
  uptime_sec : Nat
  reserved3 : Nat

/-- Little-endian byte string of a value stored in an n-byte field. -/
def bytesLE : Nat → Nat → List Nat
  | 0, _ => []
  | n + 1, v => v % 256 :: bytesLE n (v / 256)

/-- Serialization of the packed AudioTelemetryPacket_t: the struct carries
the __attribute__((packed)) layout, so the wire image is the fields'
little-endian bytes in declaration order with no padding. -/
def serializePacket (p : AudioTelemetryPacket) : List Nat :=
  bytesLE 1 p.version ++ bytesLE 1 p.reserved1 ++ bytesLE 2 p.seq_number ++
  bytesLE 4 p.timestamp_ms ++ bytesLE 2 p.rms_raw ++ bytesLE 2 p.rms_reserved ++
  bytesLE 2 p.zcr_count ++ bytesLE 2 p.zcr_rate ++ bytesLE 2 p.spl_db ++
  bytesLE 2 p.peak_amplitude ++
  bytesLE 4 (p.fft_band 0) ++ bytesLE 4 (p.fft_band 1) ++ bytesLE 4 (p.fft_band 2) ++
  bytesLE 4 (p.fft_band 3) ++ bytesLE 4 (p.fft_band 4) ++ bytesLE 4 (p.fft_band 5) ++
  bytesLE 4 (p.fft_band 6) ++ bytesLE 4 (p.fft_band 7) ++
  bytesLE 1 p.node_id ++ bytesLE 1 p.status_flags ++ bytesLE 2 p.error_count ++
  bytesLE 4 p.uptime_sec ++ bytesLE 4 p.reserved3

/-- The divergent AudioTelemetryPacket_t of Core/Inc/app_telemetry.h (lines
22-33): ten 4-byte fields (three of them float, stored here as their 32-bit
patterns) and an 8-entry uint32 array, in declaration order. -/
structure AudioTelemetryPacketAlt where
  seq_number : Nat
  timestamp_ms : Nat
  uptime_sec : Nat
  rms_raw_bits : Nat
  spl_db_bits : Nat
  peak_amplitude : Nat
  zcr_rate_bits : Nat
  status_flags : Nat
  error_count : Nat
  fft_band : Fin 8 → Nat

/-- Memory image of the Core/Inc/app_telemetry.h variant as transmitted by
Core/Src/app_telemetry.c (nx_packet_data_append of sizeof bytes): every field
is 4-byte sized and 4-byte aligned, so the layout has no padding. -/
def serializeAltPacket (q : AudioTelemetryPacketAlt) : List Nat :=
  bytesLE 4 q.seq_number ++ bytesLE 4 q.timestamp_ms ++ bytesLE 4 q.uptime_sec ++
  bytesLE 4 q.rms_raw_bits ++ bytesLE 4 q.spl_db_bits ++ bytesLE 4 q.peak_amplitude ++
  bytesLE 4 q.zcr_rate_bits ++ bytesLE 4 q.status_flags ++ bytesLE 4 q.error_count ++
  bytesLE 4 (q.fft_band 0) ++ bytesLE 4 (q.fft_band 1) ++ bytesLE 4 (q.fft_band 2) ++
  bytesLE 4 (q.fft_band 3) ++ bytesLE 4 (q.fft_band 4) ++ bytesLE 4 (q.fft_band 5) ++
  bytesLE 4 (q.fft_band 6) ++ bytesLE 4 (q.fft_band 7)

/-- An all-zero instance of the divergent packet variant. -/
def altPacketZero : AudioTelemetryPacketAlt :=
  ⟨0, 0, 0, 0, 0, 0, 0, 0, 0, fun _ => 0⟩

theorem bytesLE_length (n v : Nat) : (bytesLE n v).length = n := by
  induction n generalizing v with
  | zero => rfl
  | succ k ih => simp [bytesLE, ih]

/-- Sequence-number emission of FeatureExtraction_ProcessBuffer (part_004
lines 288-291): the uint16 field takes the uint32 counter truncated, the
counter post-increments (uint32 wrap) and is reset to 0 once it passes
65535. -/
def featureSeqEmit (seq : Nat) : Nat × Nat :=
  let emitted := seq % 65536
  let seq1 := (seq + 1) % 4294967296
  (emitted, if seq1 > 65535 then 0 else seq1)

/-- Sequence-number emission of the STM32CubeIDE sender's Telemetry_ThreadEntry
(line 177): packet.seq_number (uint16) = sequence_number++ (uint32). -/
def cubeSeqEmit (s : Nat) : Nat × Nat := (s % 65536, (s + 1) % 4294967296)

/-- Sequence-number emission of Core/Src Telemetry_AddPacket (line 107): the
packet's seq_number field is uint32 in that variant, so no 16-bit truncation
occurs. -/
def coreSeqEmit (s : Nat) : Nat × Nat := (s % 4294967296, (s + 1) % 4294967296)

/-- C1 (corrected): the packed AudioTelemetryPacket_t of audio_features.h
serializes to exactly 64 bytes for every packet instance, while the divergent
variant of Core/Inc/app_telemetry.h occupies 68 bytes when serialized. -/
theorem serializedPacketSizes :
    (∀ p : AudioTelemetryPacket, (serializePacket p).length = 64) ∧
    (∀ q : AudioTelemetryPacketAlt, (serializeAltPacket q).length = 68) := by
  constructor
  · intro p
    simp [serializePacket, bytesLE_length]
  · intro q
    simp [serializeAltPacket, bytesLE_length]

/-- C1 counterexample: a concrete instance of the Core/Inc/app_telemetry.h
packet variant serializes to 68 bytes, not 64. -/
theorem altPacketNot64 :
    (serializeAltPacket altPacketZero).length = 68 ∧ (68 : Nat) ≠ 64 := by
  constructor
  · rfl
  · decide

/-- C2 (code bug): AudioFeatures_FindPeakAmplitude applied to a batch holding
the sample INT16_MIN = -32768 returns 32768, exceeding the documented range
[0, 32767]: negating -32768 wraps back to -32768 and its uint16_t
reinterpretation is 32768. -/
theorem peakAmplitudeAtInt16Min :
    AudioFeatures_FindPeakAmplitude [(-32768 : Int)] = 32768 ∧ 32767 < 32768 := by
  constructor
  · rfl
  · decide

/-- C3 (corrected): in the feature-extraction path and in the STM32CubeIDE
sender the emitted 16-bit sequence number increases by exactly 1 per packet
and wraps from 65535 to 0; in the Core/Src variant the 32-bit field also
increases by 1 per packet but wraps only modulo 2^32. -/
theorem seqNumberIncrementsAndWraps :
    (∀ s : Nat, (featureSeqEmit (s % 65536)).1 = s % 65536 ∧
      (featureSeqEmit (featureSeqEmit (s % 65536)).2).1 = (s + 1) % 65536) ∧
    (∀ s : Nat, (cubeSeqEmit (s % 4294967296)).1 = s % 65536 ∧
      (cubeSeqEmit (cubeSeqEmit (s % 4294967296)).2).1 = (s + 1) % 65536) ∧
    (∀ s : Nat, (coreSeqEmit (s % 4294967296)).1 = s % 4294967296 ∧
      (coreSeqEmit (coreSeqEmit (s % 4294967296)).2).1 = (s + 1) % 4294967296) := by
  refine ⟨fun s => ⟨?_, ?_⟩, fun s => ⟨?_, ?_⟩, fun s => ⟨?_, ?_⟩⟩
  · simp only [featureSeqEmit]
    omega
  · simp only [featureSeqEmit]
    split <;> omega
  · simp only [cubeSeqEmit]
    omega
  · simp only [cubeSeqEmit]
    omega
  · simp only [coreSeqEmit]
    omega
  · simp only [coreSeqEmit]
    omega

/-- C3 counterexample: starting the Core/Src sender's counter at 65535, the
next two emitted sequence numbers are 65535 and then 65536 — the field does
not wrap back to 0 after 65535. -/
theorem coreSeqPasses65536 :
    (coreSeqEmit 65535).1 = 65535 ∧
    (coreSeqEmit (coreSeqEmit 65535).2).1 = 65536 ∧ (65536 : Nat) ≠ 0 := by
  refine ⟨rfl, rfl, by decide⟩

/-- AudioFrame_t from audio_acquisition.h (part_000): 512 int16 PCM samples
(indices 0..511 of the function are meaningful), capture timestamp, frame
counter and error flags. -/
structure AudioFrame where
  samples : Nat → Int
  timestamp_ms : Nat
  frame_number : Nat
  error_flags : Nat

/-- FeatureBuffer_t from feature_extraction.h (lines 36-42): the 2048-sample
accumulator array (a total function over indices, written only below 2048 by
the guarded memcpy), the running count, the batch start timestamp and the
frame count. -/
structure FeatureBuffer where
  accumulated_samples : Nat → Int
  sample_count : Nat
  start_timestamp_ms : Nat
  frame_count : Nat

/-- The first sample_count entries of the accumulator, as the feature
functions receive them (samples pointer plus count). -/
def bufSamples (b : FeatureBuffer) : List Int :=
  (List.range b.sample_count).map b.accumulated_samples

/-- The floating-point feature computations of audio_features.c, abstracted:
rms models AudioFeatures_CalculateRMS, spl models AudioFeatures_CalculateSPL
applied to the rms result, fft models AudioFeatures_ComputeFFTBands.  No
settled property depends on their values, so the model is parametric in
them. -/
structure FeatureFns where
  rms : List Int → Nat
  spl : Nat → Nat
  fft : List Int → Fin 8 → Nat

/-- The uint32 subtraction tick - boot of part_004 line 294. -/
def u32sub (a b : Nat) : Nat := (a + (4294967296 - b % 4294967296)) % 4294967296

/-- The packet FeatureExtraction_ProcessBuffer fills (part_004 lines 284-336):
memset to zero, then header, sequence number (uint16 truncation), the batch
start timestamp, node identity, flags, truncated error counter, uptime, and
the feature fields; zcr_count is sample_count / 2 (the code's "Approximate
count"), not the measured crossing count. -/
def buildPacket (fns : FeatureFns) (buf : FeatureBuffer)
    (seq err flags node tick boot : Nat) : AudioTelemetryPacket :=
  let xs := bufSamples buf
  let rms := fns.rms xs % 65536
  { version := 1
    reserved1 := 0
    seq_number := seq % 65536
    timestamp_ms := buf.start_timestamp_ms % 4294967296
    rms_raw := rms
    rms_reserved := 0
    zcr_count := buf.sample_count / 2 % 65536
    zcr_rate := AudioFeatures_CalculateZCR xs % 65536
    spl_db := fns.spl rms % 65536
    peak_amplitude := AudioFeatures_FindPeakAmplitude xs % 65536
    fft_band := fun i => fns.fft xs i % 4294967296
    node_id := node % 256
    status_flags := flags % 256
    error_count := err % 65536
    uptime_sec := u32sub tick boot / 1000
    reserved3 := 0 }

/-- Sequence-counter state after ProcessBuffer's post-increment and wrap
check (part_004 lines 289-291). -/
def seqAfter (seq : Nat) : Nat :=
  let seq1 := (seq + 1) % 4294967296
  if seq1 > 65535 then 0 else seq1

/-- FeatureExtraction_ProcessBuffer (part_004 lines 275-338): fails (returns
-1, here none) on an empty buffer, otherwise yields the filled packet and the
advanced sequence counter. -/
def FeatureExtraction_ProcessBuffer (fns : FeatureFns) (buf : FeatureBuffer)
    (seq err flags node tick boot : Nat) : Option (AudioTelemetryPacket × Nat) :=
  if buf.sample_count = 0 then none
  else some (buildPacket fns buf seq err flags node tick boot, seqAfter seq)

/-- The guarded frame append of FeatureExtraction_ThreadEntry (part_004 lines
208-224): if the frame fits, memcpy its 512 samples at offset sample_count,
advance the count, and set the batch timestamp only if the already-advanced
count equals zero (the code checks after the increment). -/
def appendFrame (buf : FeatureBuffer) (f : AudioFrame) : FeatureBuffer :=
  let off := buf.sample_count
  if off + 512 ≤ 2048 then
    { accumulated_samples := fun i =>
        if off ≤ i ∧ i < off + 512 then f.samples (i - off)
        else buf.accumulated_samples i
      sample_count := off + 512
      start_timestamp_ms := if off + 512 = 0 then f.timestamp_ms else buf.start_timestamp_ms
      frame_count := buf.frame_count }
  else buf

/-- Error-flag merge of the same guarded block (part_004 lines 221-223). -/
def flagsAfter (buf : FeatureBuffer) (flags : Nat) (f : AudioFrame) : Nat :=
  if buf.sample_count + 512 ≤ 2048 then
    if f.error_flags ≠ 0 then flags ||| f.error_flags else flags
  else flags

/-- Offsets at which the iteration writes into the accumulator array: one
memcpy of 512 samples at the current count when the guard admits it. -/
def writesOf (buf : FeatureBuffer) : List Nat :=
  if buf.sample_count + 512 ≤ 2048 then [buf.sample_count] else []

/-- Module state of feature_extraction.c: the context counters and sequence
number, the accumulator, the module-static last_error_flags, the output queue
(depth FEATURE_EXTRACT_QUEUE_DEPTH = 2) and boot_time_ms. -/
structure FeatureCtx where
  packet_count : Nat
  error_count : Nat
  seq_number : Nat
  feature_buffer : FeatureBuffer
  last_error_flags : Nat
  out_queue : List AudioTelemetryPacket
  boot_time_ms : Nat

/-- State after FeatureExtraction_Init and Start: everything zeroed. -/
def featureInit (boot : Nat) : FeatureCtx :=
  { packet_count := 0
    error_count := 0
    seq_number := 0
    feature_buffer := ⟨fun _ => 0, 0, 0, 0⟩
    last_error_flags := 0
    out_queue := []
    boot_time_ms := boot }

/-- Outcome of one tx_queue_receive in the thread loop: timeout
(TX_QUEUE_EMPTY), another receive error, or a frame with the tick at which
the iteration runs. -/
inductive RecvEvent where
  | timeout
  | recvError
  | frame (f : AudioFrame) (tick : Nat)

/-- What one iteration logs: accumulator write offsets, the sample counts
over which emitted packets were computed, and the packets enqueued or
dropped. -/
structure IterLog where
  writeOffsets : List Nat
  emittedCounts : List Nat
  packets : List AudioTelemetryPacket

/-- The log of an iteration that produced nothing. -/
def emptyLog : IterLog := ⟨[], [], []⟩

/-- One iteration of FeatureExtraction_ThreadEntry's loop (part_004 lines
192-258): timeout loops silently; another receive error counts; a received
frame is appended under the capacity guard, and once 2048 samples are
accumulated the packet is built and enqueued with TX_NO_WAIT — on a full
output queue the send fails at once, the error counter increments and the
packet count is untouched — and the accumulator is reset either way. -/
def FeatureExtraction_ThreadIter (fns : FeatureFns) (node : Nat) (ctx : FeatureCtx)
    (ev : RecvEvent) : FeatureCtx × IterLog :=
  match ev with
  | .timeout => (ctx, emptyLog)
  | .recvError => ({ ctx with error_count := (ctx.error_count + 1) % 4294967296 }, emptyLog)
  | .frame f tick =>
    let buf1 := appendFrame ctx.feature_buffer f
    let flags1 := flagsAfter ctx.feature_buffer ctx.last_error_flags f
    let wlog := writesOf ctx.feature_buffer
    if buf1.sample_count ≥ 2048 then
      match FeatureExtraction_ProcessBuffer fns buf1 ctx.seq_number ctx.error_count
          flags1 node tick ctx.boot_time_ms with
      | some (pkt, seq2) =>
        let enqueueOk := ctx.out_queue.length < 2
        ({ packet_count := if enqueueOk then (ctx.packet_count + 1) % 4294967296
                           else ctx.packet_count
           error_count := if enqueueOk then ctx.error_count
                          else (ctx.error_count + 1) % 4294967296
           seq_number := seq2
           feature_buffer := ⟨fun _ => 0, 0, 0, 0⟩
           last_error_flags := 0
           out_queue := if enqueueOk then ctx.out_queue ++ [pkt] else ctx.out_queue
           boot_time_ms := ctx.boot_time_ms },
         { writeOffsets := wlog, emittedCounts := [buf1.sample_count], packets := [pkt] })
      | none =>
        ({ ctx with error_count := (ctx.error_count + 1) % 4294967296
                    feature_buffer := ⟨fun _ => 0, 0, 0, 0⟩
                    last_error_flags := 0 },
         { writeOffsets := wlog, emittedCounts := [], packets := [] })
    else
      ({ ctx with feature_buffer := buf1, last_error_flags := flags1 },
       { writeOffsets := wlog, emittedCounts := [], packets := [] })

/-- The thread loop over a list of receive outcomes, with the concatenated
log. -/
def FeatureExtraction_Run (fns : FeatureFns) (node : Nat) :
    FeatureCtx → List RecvEvent → FeatureCtx × IterLog
  | ctx, [] => (ctx, emptyLog)
  | ctx, e :: es =>
    let step := FeatureExtraction_ThreadIter fns node ctx e
    let rest := FeatureExtraction_Run fns node step.1 es
    (rest.1, ⟨step.2.writeOffsets ++ rest.2.writeOffsets,
              step.2.emittedCounts ++ rest.2.emittedCounts,
              step.2.packets ++ rest.2.packets⟩)

/-- The accumulator's sample_count at each queue-receive point of the loop. -/
def FeatureExtraction_SampleCounts (fns : FeatureFns) (node : Nat) :
    FeatureCtx → List RecvEvent → List Nat
  | ctx, [] => [ctx.feature_buffer.sample_count]
  | ctx, e :: es => ctx.feature_buffer.sample_count ::
      FeatureExtraction_SampleCounts fns node (FeatureExtraction_ThreadIter fns node ctx e).1 es

/-- Trivial instantiation of the abstracted floating-point features, for
concrete evaluations. -/
def fns0 : FeatureFns := ⟨fun _ => 0, fun _ => 0, fun _ _ => 0⟩

/-- An all-zero audio frame carrying the given capture timestamp. -/
def frameTs (ts : Nat) : AudioFrame :=
  { samples := fun _ => 0, timestamp_ms := ts, frame_number := 0, error_flags := 0 }

theorem processBuffer_some (fns : FeatureFns) (buf : FeatureBuffer)
    (seq err flags node tick boot : Nat) (h : buf.sample_count ≠ 0) :
    FeatureExtraction_ProcessBuffer fns buf seq err flags node tick boot =
      some (buildPacket fns buf seq err flags node tick boot, seqAfter seq) := by
  simp [FeatureExtraction_ProcessBuffer, h]

/-- C4 (code bug): a full accumulation cycle whose first frame was captured at
t = 1234 ms emits a packet whose timestamp_ms is 0, because the thread tests
sample_count == 0 only after advancing it by 512, so start_timestamp_ms is
never assigned and keeps its memset value. -/
theorem timestampNeverSet :
    ((FeatureExtraction_Run fns0 1 (featureInit 0)
        [RecvEvent.frame (frameTs 1234) 10, RecvEvent.frame (frameTs 1746) 20,
         RecvEvent.frame (frameTs 2258) 30, RecvEvent.frame (frameTs 2770) 40]).2.packets.map
      fun p => p.timestamp_ms) = [0] ∧
    (frameTs 1234).timestamp_ms = 1234 ∧ (0 : Nat) ≠ 1234 := by
  refine ⟨rfl, rfl, by decide⟩

/-- C5 (corrected): every packet FeatureExtraction_ProcessBuffer emits carries
zcr_count = sample_count / 2 (truncated to uint16), the code's deliberate
approximation, rather than the measured crossing count. -/
theorem zcrCountIsHalfSampleCount (fns : FeatureFns) (buf : FeatureBuffer)
    (seq err flags node tick boot : Nat) (h : buf.sample_count ≠ 0) :
    ∃ pkt seq2,
      FeatureExtraction_ProcessBuffer fns buf seq err flags node tick boot =
        some (pkt, seq2) ∧ pkt.zcr_count = buf.sample_count / 2 % 65536 := by
  exact ⟨_, _, processBuffer_some fns buf seq err flags node tick boot h, rfl⟩

/-- A full 2048-sample batch of all-zero samples. -/
def bufZeros : FeatureBuffer :=
  { accumulated_samples := fun _ => 0, sample_count := 2048,
    start_timestamp_ms := 0, frame_count := 0 }

/-- C5 witness: on the concrete full batch the emitted zcr_count is 1024. -/
theorem zcrCountIsHalfSampleCount_w :
    bufZeros.sample_count ≠ 0 ∧
    (∃ pkt seq2,
      FeatureExtraction_ProcessBuffer fns0 bufZeros 0 0 0 1 0 0 = some (pkt, seq2) ∧
      pkt.zcr_count = bufZeros.sample_count / 2 % 65536) :=
  ⟨by decide, zcrCountIsHalfSampleCount fns0 bufZeros 0 0 0 1 0 0 (by decide)⟩

theorem zeroCrossings_replicate_zero (n : Nat) :
    zeroCrossings (List.replicate n (0 : Int)) = 0 := by
  induction n with
  | zero => rfl
  | succ k ih =>
    cases k with
    | zero => rfl
    | succ m =>
      simpa [List.replicate_succ, zeroCrossings] using ih

theorem bufZeros_samples : bufSamples bufZeros = List.replicate 2048 (0 : Int) := by
  simp [bufSamples, bufZeros]

/-- C5 counterexample: for the all-zero 2048-sample batch the emitted packet
has zcr_count = 1024 while the batch contains 0 sign transitions. -/
theorem zcrCountNotCrossingCount :
    (Option.map (fun r => r.1.zcr_count)
      (FeatureExtraction_ProcessBuffer fns0 bufZeros 0 0 0 1 0 0)) = some 1024 ∧
    zeroCrossings (bufSamples bufZeros) = 0 ∧ (1024 : Nat) ≠ 0 := by
  refine ⟨rfl, ?_, by decide⟩
  rw [bufZeros_samples]
  exact zeroCrossings_replicate_zero 2048

/-- C6 (confirmed): when the output queue already holds its 2-packet capacity
as a finished batch is processed, the TX_NO_WAIT enqueue fails at once: the
error counter increments by exactly 1, the packet counter is untouched, the
accumulator is reset to empty and the queue keeps its previous contents. -/
theorem enqueueFullDropsPacket (fns : FeatureFns) (node : Nat) (ctx : FeatureCtx)
    (f : AudioFrame) (tick : Nat)
    (hcount : ctx.feature_buffer.sample_count = 1536)
    (hfull : ctx.out_queue.length = 2)
    (herr : ctx.error_count + 1 < 4294967296) :
    ((FeatureExtraction_ThreadIter fns node ctx (RecvEvent.frame f tick)).1.error_count
        = ctx.error_count + 1) ∧
    ((FeatureExtraction_ThreadIter fns node ctx (RecvEvent.frame f tick)).1.packet_count
        = ctx.packet_count) ∧
    ((FeatureExtraction_ThreadIter fns node ctx
        (RecvEvent.frame f tick)).1.feature_buffer.sample_count = 0) ∧
    ((FeatureExtraction_ThreadIter fns node ctx (RecvEvent.frame f tick)).1.out_queue
        = ctx.out_queue) := by
  have happ : ctx.feature_buffer.sample_count + 512 ≤ 2048 := by omega
  have hbuf : (appendFrame ctx.feature_buffer f).sample_count = 2048 := by
    simp [appendFrame, happ, hcount]
  have hne : (appendFrame ctx.feature_buffer f).sample_count ≠ 0 := by omega
  have hq : ¬ ctx.out_queue.length < 2 := by omega
  simp [FeatureExtraction_ThreadIter, hbuf, processBuffer_some _ _ _ _ _ _ _ _ hne, hq,
    Nat.mod_eq_of_lt herr]

/-- A concrete wire packet with all fields zero except the version byte. -/
def pkt0 : AudioTelemetryPacket :=
  ⟨1, 0, 0, 0, 0, 0, 0, 0, 0, 0, fun _ => 0, 1, 0, 0, 0, 0⟩

/-- A context whose accumulator holds 1536 samples and whose output queue is
at its 2-packet capacity. -/
def ctxFull : FeatureCtx :=
  { packet_count := 5
    error_count := 3
    seq_number := 9
    feature_buffer := ⟨fun _ => 0, 1536, 0, 3⟩
    last_error_flags := 0
    out_queue := [pkt0, pkt0]
    boot_time_ms := 0 }

/-- C6 witness: the queue-full drop evaluated on the concrete context. -/
theorem enqueueFullDropsPacket_w :
    ((FeatureExtraction_ThreadIter fns0 1 ctxFull
        (RecvEvent.frame (frameTs 99) 7)).1.error_count = ctxFull.error_count + 1) ∧
    ((FeatureExtraction_ThreadIter fns0 1 ctxFull
        (RecvEvent.frame (frameTs 99) 7)).1.packet_count = ctxFull.packet_count) ∧
    ((FeatureExtraction_ThreadIter fns0 1 ctxFull
        (RecvEvent.frame (frameTs 99) 7)).1.feature_buffer.sample_count = 0) ∧
    ((FeatureExtraction_ThreadIter fns0 1 ctxFull
        (RecvEvent.frame (frameTs 99) 7)).1.out_queue = ctxFull.out_queue) :=
  enqueueFullDropsPacket fns0 1 ctxFull (frameTs 99) 7 rfl rfl (by decide)

/-- The accumulator invariant at a queue-receive point: the count is a whole
number of 512-sample frames and at most three of them. -/
def SCinv (ctx : FeatureCtx) : Prop :=
  ctx.feature_buffer.sample_count % 512 = 0 ∧ ctx.feature_buffer.sample_count ≤ 1536

theorem threadIter_inv (fns : FeatureFns) (node : Nat) (ctx : FeatureCtx)
    (ev : RecvEvent) (h : SCinv ctx) :
    SCinv (FeatureExtraction_ThreadIter fns node ctx ev).1 ∧
    (∀ off ∈ (FeatureExtraction_ThreadIter fns node ctx ev).2.writeOffsets,
      off + 512 ≤ 2048) ∧
    (∀ n ∈ (FeatureExtraction_ThreadIter fns node ctx ev).2.emittedCounts, n = 2048) := by
  obtain ⟨hmod, hle⟩ := h
  cases ev with
  | timeout =>
    refine ⟨⟨hmod, hle⟩, ?_, ?_⟩ <;> simp [FeatureExtraction_ThreadIter, emptyLog]
  | recvError =>
    refine ⟨⟨hmod, hle⟩, ?_, ?_⟩ <;> simp [FeatureExtraction_ThreadIter, emptyLog]
  | frame f tick =>
    have happ : ctx.feature_buffer.sample_count + 512 ≤ 2048 := by omega
    have hbuf : (appendFrame ctx.feature_buffer f).sample_count =
        ctx.feature_buffer.sample_count + 512 := by
      simp [appendFrame, happ]
    have hwr : writesOf ctx.feature_buffer = [ctx.feature_buffer.sample_count] := by
      simp [writesOf, happ]
    by_cases hge : 1536 ≤ ctx.feature_buffer.sample_count
    · have hc : ctx.feature_buffer.sample_count = 1536 := by omega
      have hne : (appendFrame ctx.feature_buffer f).sample_count ≠ 0 := by omega
      refine ⟨?_, ?_, ?_⟩ <;>
        simp [FeatureExtraction_ThreadIter, hbuf, hwr, SCinv, hc,
          processBuffer_some _ _ _ _ _ _ _ _ hne]
    · refine ⟨?_, ?_, ?_⟩ <;>
        simp [FeatureExtraction_ThreadIter, hbuf, hwr, SCinv, hge] <;> omega

theorem run_inv (fns : FeatureFns) (node : Nat) (events : List RecvEvent) :
    ∀ ctx : FeatureCtx, SCinv ctx →
    (∀ n ∈ FeatureExtraction_SampleCounts fns node ctx events, n % 512 = 0 ∧ n ≤ 2048) ∧
    (∀ off ∈ (FeatureExtraction_Run fns node ctx events).2.writeOffsets,
      off + 512 ≤ 2048) ∧
    (∀ n ∈ (FeatureExtraction_Run fns node ctx events).2.emittedCounts, n = 2048) := by
  induction events with
  | nil =>
    intro ctx h
    refine ⟨?_, by simp [FeatureExtraction_Run, emptyLog], by
      simp [FeatureExtraction_Run, emptyLog]⟩
    intro n hn
    simp [FeatureExtraction_SampleCounts] at hn
    subst hn
    exact ⟨h.1, by have := h.2; omega⟩
  | cons e es ih =>
    intro ctx h
    obtain ⟨hstep, hw, he⟩ := threadIter_inv fns node ctx e h
    obtain ⟨ihc, ihw, ihe⟩ := ih (FeatureExtraction_ThreadIter fns node ctx e).1 hstep
    refine ⟨?_, ?_, ?_⟩
    · intro n hn
      simp [FeatureExtraction_SampleCounts] at hn
      rcases hn with hn | hn
      · subst hn
        exact ⟨h.1, by have := h.2; omega⟩
      · exact ihc n hn
    · intro off hoff
      simp [FeatureExtraction_Run] at hoff
      rcases hoff with hoff | hoff
      · exact hw off hoff
      · exact ihw off hoff
    · intro n hn
      simp [FeatureExtraction_Run] at hn
      rcases hn with hn | hn
      · exact he n hn
      · exact ihe n hn

/-- C10 (confirmed): starting from the initialized extractor, at every
queue-receive iteration the accumulator's sample_count is a multiple of 512
and never exceeds 2048, every memcpy into the accumulator ends at or before
index 2048, and every emitted packet is computed over exactly 2048 samples. -/
theorem accumulatorBounded (fns : FeatureFns) (node boot : Nat)
    (events : List RecvEvent) :
    (∀ n ∈ FeatureExtraction_SampleCounts fns node (featureInit boot) events,
      n % 512 = 0 ∧ n ≤ 2048) ∧
    (∀ off ∈ (FeatureExtraction_Run fns node (featureInit boot) events).2.writeOffsets,
      off + 512 ≤ 2048) ∧
    (∀ n ∈ (FeatureExtraction_Run fns node (featureInit boot) events).2.emittedCounts,
      n = 2048) :=
  run_inv fns node events (featureInit boot) ⟨rfl, by simp [featureInit]⟩

/-- Outcome the network environment hands one transmit attempt of
NetXDuo/App/app_telemetry.c: nx_packet_allocate fails, nx_udp_socket_send
fails, or the datagram leaves. -/
inductive NetOutcome where
  | allocFail
  | sendFail
  | ok
deriving DecidableEq

/-- Module state of the NetXDuo/App telemetry sender: the context counters
and the best-effort last-packet cache (telemetry_last_pkt and its valid
flag). -/
structure TelemetryCtx where
  tx_count : Nat
  error_count : Nat
  last_pkt : AudioTelemetryPacket
  last_pkt_valid : Nat

/-- Telemetry_TransmitPacket (NetXDuo/App/app_telemetry.c lines 327-384):
an allocate failure increments the module error counter inside the function
and returns the failing status; a send failure releases the datagram and
returns its status; otherwise NX_SUCCESS.  The Bool is status == NX_SUCCESS. -/
def Telemetry_TransmitPacket (ctx : TelemetryCtx) (outcome : NetOutcome) :
    TelemetryCtx × Bool :=
  match outcome with
  | .allocFail => ({ ctx with error_count := (ctx.error_count + 1) % 4294967296 }, false)
  | .sendFail => (ctx, false)
  | .ok => (ctx, true)

/-- One packet-receiving iteration of Telemetry_ThreadEntry (NetXDuo/App
lines 255-271): transmit, then unconditionally mirror the packet into the
last-packet cache, then bump tx_count on success or error_count on
failure. -/
def Telemetry_ThreadIter (ctx : TelemetryCtx) (pkt : AudioTelemetryPacket)
    (outcome : NetOutcome) : TelemetryCtx :=
  let r := Telemetry_TransmitPacket ctx outcome
  let c2 := { r.1 with last_pkt := pkt, last_pkt_valid := 1 }
  if r.2 then { c2 with tx_count := (c2.tx_count + 1) % 4294967296 }
  else { c2 with error_count := (c2.error_count + 1) % 4294967296 }

/-- C7 (confirmed): when a transmit attempt fails (datagram allocation or
datagram send), the sender's error counter strictly increases, the tx
(success) counter is unchanged, and the retained last-packet cache is still
updated with the attempted packet and marked valid. -/
theorem transmitFailureAccounting (ctx : TelemetryCtx) (pkt : AudioTelemetryPacket)
    (outcome : NetOutcome) (hfail : outcome ≠ NetOutcome.ok)
    (herr : ctx.error_count + 2 < 4294967296) :
    ctx.error_count < (Telemetry_ThreadIter ctx pkt outcome).error_count ∧
    (Telemetry_ThreadIter ctx pkt outcome).tx_count = ctx.tx_count ∧
    (Telemetry_ThreadIter ctx pkt outcome).last_pkt = pkt ∧
    (Telemetry_ThreadIter ctx pkt outcome).last_pkt_valid = 1 := by
  cases outcome with
  | allocFail =>
    refine ⟨?_, rfl, rfl, rfl⟩
    simp [Telemetry_ThreadIter, Telemetry_TransmitPacket]
    omega
  | sendFail =>
    refine ⟨?_, rfl, rfl, rfl⟩
    simp [Telemetry_ThreadIter, Telemetry_TransmitPacket]
    omega
  | ok => exact absurd rfl hfail

/-- A concrete sender context before a failing transmit. -/
def senderCtx : TelemetryCtx :=
  { tx_count := 17, error_count := 4, last_pkt := pkt0, last_pkt_valid := 1 }

/-- A concrete packet distinct from the cached one, for the C7 witness. -/
def pkt1 : AudioTelemetryPacket :=
  ⟨1, 0, 7, 1234, 0, 0, 1024, 3, 55, 900, fun _ => 0, 1, 0, 0, 2, 0⟩

/-- C7 witness: the failing-allocation iteration evaluated on the concrete
sender context. -/
theorem transmitFailureAccounting_w :
    senderCtx.error_count <
      (Telemetry_ThreadIter senderCtx pkt1 NetOutcome.allocFail).error_count ∧
    (Telemetry_ThreadIter senderCtx pkt1 NetOutcome.allocFail).tx_count =
      senderCtx.tx_count ∧
    (Telemetry_ThreadIter senderCtx pkt1 NetOutcome.allocFail).last_pkt = pkt1 ∧
    (Telemetry_ThreadIter senderCtx pkt1 NetOutcome.allocFail).last_pkt_valid = 1 :=
  transmitFailureAccounting senderCtx pkt1 NetOutcome.allocFail (by decide) (by decide)

/-- TelemetryBuffer_t (both app_telemetry.c variants): TELEMETRY_MAX_PACKETS
= 10 retained packets (the array as a function over slot indices), write and
read cursors and the count.  The element type is generic; the C stores
AudioTelemetryPacket_t. -/
structure TelemetryBuffer (α : Type) where
  packets : Nat → α
  write_index : Nat
  read_index : Nat
  packet_count : Nat

/-- Telemetry_BufferPut of STM32CubeIDE/.../app_telemetry.c (lines 311-328):
store at the write cursor, advance it mod 10; below capacity the count
grows, at capacity the read cursor advances instead, discarding the oldest
entry (ring overwrite).  The function returns 1 unconditionally. -/
def Telemetry_BufferPut {α : Type} (b : TelemetryBuffer α) (p : α) :
    TelemetryBuffer α :=
  let stored : Nat → α := fun i => if i = b.write_index then p else b.packets i
  let w := (b.write_index + 1) % 10
  if b.packet_count < 10 then
    { packets := stored, write_index := w, read_index := b.read_index,
      packet_count := b.packet_count + 1 }
  else
    { packets := stored, write_index := w, read_index := (b.read_index + 1) % 10,
      packet_count := b.packet_count }

/-- Telemetry_BufferPut of Core/Src/app_telemetry.c (lines 149-165): the same
ring, but a write at capacity is rejected — the function returns false and
changes nothing. -/
def CoreTelemetry_BufferPut {α : Type} (b : TelemetryBuffer α) (p : α) :
    TelemetryBuffer α × Bool :=
  if b.packet_count < 10 then
    ({ packets := fun i => if i = b.write_index then p else b.packets i,
       write_index := (b.write_index + 1) % 10, read_index := b.read_index,
       packet_count := b.packet_count + 1 }, true)
  else (b, false)

/-- Telemetry_GetLastPacket of STM32CubeIDE/.../app_telemetry.c (lines
245-264): with the mutex held, peek at slot (write_index + 10 - 1) mod 10
without touching cursors or count; none when the cache is empty.  The
function only copies out, so it takes no state transition. -/
def Telemetry_GetLastPacket {α : Type} (b : TelemetryBuffer α) : Option α :=
  if b.packet_count > 0 then some (b.packets ((b.write_index + 10 - 1) % 10))
  else none

/-- Telemetry_BufferGet of Core/Src/app_telemetry.c (lines 172-188), the body
of that variant's Telemetry_GetLastPacket: dequeue the entry at the read
cursor, advancing it and decrementing the count; none when empty. -/
def CoreTelemetry_BufferGet {α : Type} (b : TelemetryBuffer α) :
    Option α × TelemetryBuffer α :=
  if b.packet_count > 0 then
    (some (b.packets b.read_index),
     { b with read_index := (b.read_index + 1) % 10,
              packet_count := b.packet_count - 1 })
  else (none, b)

/-- C8 (corrected): the STM32CubeIDE retained cache never exceeds its
capacity of 10; its cursor discipline is preserved by every write; and a
write at capacity succeeds by storing at the write cursor — which then
coincides with the read cursor, the slot of the oldest retained entry —
advancing the read cursor to discard that oldest entry, leaving the count at
capacity and every other slot untouched. -/
theorem retainedCacheRingOverwrite {α : Type} (b : TelemetryBuffer α) (p : α)
    (hr : b.read_index < 10)
    (hw : b.write_index = (b.read_index + b.packet_count) % 10)
    (hc : b.packet_count ≤ 10) :
    (Telemetry_BufferPut b p).packet_count ≤ 10 ∧
    (Telemetry_BufferPut b p).read_index < 10 ∧
    (Telemetry_BufferPut b p).write_index =
      ((Telemetry_BufferPut b p).read_index + (Telemetry_BufferPut b p).packet_count) % 10 ∧
    (b.packet_count = 10 →
      (Telemetry_BufferPut b p).packet_count = 10 ∧
      (Telemetry_BufferPut b p).read_index = (b.read_index + 1) % 10 ∧
      b.write_index = b.read_index ∧
      (Telemetry_BufferPut b p).packets b.read_index = p ∧
      (∀ i, i ≠ b.write_index → (Telemetry_BufferPut b p).packets i = b.packets i)) := by
  by_cases hfull : b.packet_count < 10
  · refine ⟨?_, ?_, ?_, ?_⟩ <;> simp [Telemetry_BufferPut, hfull] <;> omega
  · have hc10 : b.packet_count = 10 := by omega
    have hwr : b.write_index = b.read_index := by omega
    refine ⟨?_, ?_, ?_, fun _ => ⟨?_, ?_, hwr, ?_, ?_⟩⟩ <;>
      simp [Telemetry_BufferPut, hfull, hc10, hwr] <;> omega

/-- A retained cache at its capacity of 10, slot i holding value i. -/
def fullCacheTen : TelemetryBuffer Nat :=
  { packets := fun i => i, write_index := 0, read_index := 0, packet_count := 10 }

/-- C8 witness: the ring-overwrite behaviour evaluated on the concrete full
cache. -/
theorem retainedCacheRingOverwrite_w :
    (Telemetry_BufferPut fullCacheTen 42).packet_count ≤ 10 ∧
    (Telemetry_BufferPut fullCacheTen 42).read_index < 10 ∧
    (Telemetry_BufferPut fullCacheTen 42).write_index =
      ((Telemetry_BufferPut fullCacheTen 42).read_index +
        (Telemetry_BufferPut fullCacheTen 42).packet_count) % 10 ∧
    (fullCacheTen.packet_count = 10 →
      (Telemetry_BufferPut fullCacheTen 42).packet_count = 10 ∧
      (Telemetry_BufferPut fullCacheTen 42).read_index =
        (fullCacheTen.read_index + 1) % 10 ∧
      fullCacheTen.write_index = fullCacheTen.read_index ∧
      (Telemetry_BufferPut fullCacheTen 42).packets fullCacheTen.read_index = 42 ∧
      (∀ i, i ≠ fullCacheTen.write_index →
        (Telemetry_BufferPut fullCacheTen 42).packets i = fullCacheTen.packets i)) :=
  retainedCacheRingOverwrite fullCacheTen 42 (by decide) (by decide) (by decide)

/-- C8 counterexample: the Core/Src variant rejects a write performed while
the cache is at capacity — it returns false and leaves the buffer unchanged,
instead of overwriting the oldest entry. -/
theorem coreCachePutRejectsWhenFull :
    CoreTelemetry_BufferPut fullCacheTen 42 = (fullCacheTen, false) ∧ false ≠ true := by
  exact ⟨rfl, by decide⟩

/-- C9 (corrected): in the STM32CubeIDE variant, whenever the cache is
nonempty the get-last-packet query returns exactly the most recently written
entry — the definition performs no state change, so nothing is removed — and
on an empty cache it reports no data at once. -/
theorem getLastPacketSnapshot {α : Type} (b : TelemetryBuffer α) (p : α)
    (hw : b.write_index < 10) :
    Telemetry_GetLastPacket (Telemetry_BufferPut b p) = some p ∧
    (b.packet_count = 0 → Telemetry_GetLastPacket b = none) := by
  constructor
  · have hslot : ((b.write_index + 1) % 10 + 10 - 1) % 10 = b.write_index := by omega
    by_cases hfull : b.packet_count < 10 <;>
      simp [Telemetry_BufferPut, Telemetry_GetLastPacket, hfull, hslot] <;> omega
  · intro h0
    simp [Telemetry_GetLastPacket, h0]

/-- A cache holding two entries: slot 0 the older value 7, slot 1 the newer
value 9, cursors read = 0 and write = 2. -/
def cacheTwo : TelemetryBuffer Nat :=
  { packets := fun i => if i = 0 then 7 else if i = 1 then 9 else 0,
    write_index := 2, read_index := 0, packet_count := 2 }

/-- C9 witness: the snapshot read evaluated on the concrete two-entry
cache. -/
theorem getLastPacketSnapshot_w :
    Telemetry_GetLastPacket (Telemetry_BufferPut cacheTwo 11) = some 11 ∧
    (cacheTwo.packet_count = 0 → Telemetry_GetLastPacket cacheTwo = none) :=
  getLastPacketSnapshot cacheTwo 11 (by decide)

/-- C9 counterexample: the Core/Src variant's get-last-packet path dequeues:
on the two-entry cache it returns the oldest entry 7 — though the most
recently written entry is 9 — and removes it, dropping the count from 2
to 1. -/
theorem coreGetRemovesOldest :
    (CoreTelemetry_BufferGet cacheTwo).1 = some 7 ∧
    (CoreTelemetry_BufferGet cacheTwo).2.packet_count = 1 ∧
    cacheTwo.packet_count = 2 ∧
    cacheTwo.packets ((cacheTwo.write_index + 10 - 1) % 10) = 9 ∧ (7 : Nat) ≠ 9 := by
  refine ⟨rfl, rfl, rfl, rfl, by decide⟩
